import Mathlib

/-!
Verification of the assistant service in src/core/ai_assistant.py.

The Python module is sequential glue around a remote chat-completion
endpoint, the local file system, and a GUI toolkit.  The embedding below
models the external collaborators as explicit oracles:

* the file system is a record of read outcomes per path (a read either
  raises, modelled as Except.error, or yields a text);
* the remote completion call is a function from the request prompt to an
  outcome (Except.error covers every raising path: network failure,
  quota, malformed response, a None message content);
* GUI input (the key typed into the setup dialog) is an Option String
  parameter.

Machine state is the triple of fields the class mutates: api_key,
client (modelled as the Bool "client is not None") and is_configured,
plus the on-disk config record.
-/

/-- Python os.path.basename for POSIX paths: the part of the path after
the last slash (empty when the path ends in a slash). -/
def basenameChars (l : List Char) : List Char :=
  l.foldl (fun acc c => if c = '/' then [] else acc ++ [c]) []

/-- os.path.basename on strings. -/
def basename (p : String) : String := ⟨basenameChars p.data⟩

/-- Index, from the left, of the last dot in a list of characters. -/
def lastDot : List Char → Option Nat
  | [] => none
  | c :: rest =>
    match lastDot rest with
    | some i => some (i + 1)
    | none => if c = '.' then some 0 else none

/-- Python os.path.splitext restricted to a basename (no slash inside):
split at the last dot, unless every character before that dot is itself a
dot (so dotfiles such as .bashrc have no extension), exactly as
genericpath._splitext does after the final path separator. -/
def splitextBase (b : String) : String × String :=
  match lastDot b.data with
  | none => (b, "")
  | some i =>
    if (b.data.take i).all (fun c => c = '.') then (b, "")
    else (⟨b.data.take i⟩, ⟨b.data.drop i⟩)

/-- os.path.splitext(os.path.basename(p))[0]: the base file name without
its extension, as used for fallback and padding names. -/
def baseNameNoExt (p : String) : String := (splitextBase (basename p)).1

/-- Python str.lower restricted to ASCII case mapping, character by
character. -/
def pyToLower (s : String) : String := ⟨s.data.map Char.toLower⟩

/-- os.path.splitext(p)[1].lower(): the lower-cased extension of the
path. splitext looks for the dot only after the last separator, so the
extension of the full path equals the extension of its basename. -/
def fileExt (p : String) : String := pyToLower (splitextBase (basename p)).2

/-- Does the first character list start with the second? -/
def startsWithChars : List Char → List Char → Bool
  | _, [] => true
  | [], _ :: _ => false
  | c :: cs, d :: ds => c = d && startsWithChars cs ds

/-- Python str.startswith on strings. -/
def pyStartsWith (s p : String) : Bool := startsWithChars s.data p.data

/-- The extensions read directly as text in _extract_file_content. -/
def textExts : List String :=
  [".txt", ".md", ".py", ".js", ".html", ".css", ".json", ".xml"]

/-- Oracle for the file system and the two optional document readers.
Each reader returns Except.error when the underlying Python call raises
(missing file, parse failure, ...), and Except.ok with the produced text
otherwise.  The Availability flags model whether the optional import of
PyPDF2 resp. docx succeeds. -/
structure FS where
  readText : String → Except Unit String
  pdfAvailable : Bool
  readPdf : String → Except Unit String
  docxAvailable : Bool
  readDocx : String → Except Unit String

/-- AIAssistant._extract_file_content.  The whole body sits in a
try/except whose handler returns "Filename: {basename}"; the only
raising operations are the reads, so each read error lands there.  An
ImportError of an optional reader is swallowed by the inner handler
(pass), after which control falls through to the final
"Filename/File type" stub. -/
def extractFileContent (fs : FS) (file_path : String) : String :=
  let file_ext := fileExt file_path
  if textExts.contains file_ext then
    match fs.readText file_path with
    | .ok s => s
    | .error _ => "Filename: " ++ basename file_path
  else if file_ext = ".pdf" then
    if fs.pdfAvailable then
      match fs.readPdf file_path with
      | .ok s => s
      | .error _ => "Filename: " ++ basename file_path
    else
      "Filename: " ++ basename file_path ++ "\nFile type: " ++ file_ext
  else if file_ext = ".doc" ∨ file_ext = ".docx" then
    if fs.docxAvailable then
      match fs.readDocx file_path with
      | .ok s => s
      | .error _ => "Filename: " ++ basename file_path
    else
      "Filename: " ++ basename file_path ++ "\nFile type: " ++ file_ext
  else
    "Filename: " ++ basename file_path ++ "\nFile type: " ++ file_ext

/-- The mutable fields of AIAssistant: api_key, client (abstracted to
whether it is not None) and is_configured. -/
structure AIState where
  api_key : Option String
  client : Bool
  is_configured : Bool

/-- AIAssistant.is_ready: self.is_configured and self.client is not None. -/
def is_ready (st : AIState) : Bool := st.is_configured && st.client

/-- AIAssistant._get_fallback_suggestions. -/
def get_fallback_suggestions (file_path : String) : List String :=
  let base_name := baseNameNoExt file_path
  [base_name ++ "_renamed", base_name ++ "_organized", base_name ++ "_updated"]

/-- The content truncation step of get_document_name_suggestions:
content longer than 3000 characters is cut to its first 3000 characters
and the marker "..." is appended; shorter content passes unchanged. -/
def truncateContent (file_content : String) : String :=
  if 3000 < file_content.length then file_content.take 3000 ++ "..."
  else file_content

/-- The padding loop of get_document_name_suggestions: while the list is
shorter than 3, append "{base_name}_v{len(suggestions)}"; finally take
the first 3. -/
def padSuggestions (base_name : String) (suggestions : List String) : List String :=
  if suggestions.length < 3 then
    padSuggestions base_name
      (suggestions ++ [base_name ++ "_v" ++ toString suggestions.length])
  else
    suggestions.take 3
termination_by 3 - suggestions.length
decreasing_by simp [List.length_append]; omega

/-- The prompt string built by get_document_name_suggestions around the
(possibly truncated) document content. -/
def suggestionPrompt (file_content : String) : String :=
  "Analyze the following document content and suggest 3 clear, descriptive filenames. \nThe suggestions should be:\n1. Professional and concise\n2. Descriptive of the content\n3. Suitable for file naming (no special characters)\n4. Different from each other\n\nDocument content:\n"
    ++ file_content
    ++ "\n\nRespond with exactly 3 filename suggestions, one per line, without file extensions.\nExample format:\nMarketing Strategy Q4 2024\nCustomer Acquisition Plan\nSales Performance Analysis"

/-- AIAssistant.get_document_name_suggestions.  api is the remote
completion oracle: given the prompt it either raises (Except.error, the
catch-all handler of the method) or yields the stripped-source reply
text response.choices[0].message.content; every failure of the call or
of the response parse is the error case.  The whole try block can raise
only there: extraction and the string operations are total. -/
def get_document_name_suggestions (st : AIState) (fs : FS)
    (api : String → Except Unit String)
    (file_path : String) (file_content? : Option String) : List String :=
  if !(is_ready st) then []
  else
    let content0 :=
      match file_content? with
      | none => extractFileContent fs file_path
      | some c => c
    let content1 := if content0 = "" then "File: " ++ basename file_path else content0
    let content2 := truncateContent content1
    match api (suggestionPrompt content2) with
    | .error _ => get_fallback_suggestions file_path
    | .ok raw =>
      let suggestions_text := raw.trim
      let suggestions :=
        ((suggestions_text.splitOn "\n").map String.trim).filter (fun s => s != "")
      if 3 ≤ suggestions.length then suggestions.take 3
      else if suggestions ≠ [] then
        padSuggestions (baseNameNoExt file_path) suggestions
      else get_fallback_suggestions file_path

/-- AIAssistant.get_name_suggestions_async: the worker thread computes
get_document_name_suggestions and hands the result to the callback; the
delivered value is therefore exactly the synchronous result. -/
def get_name_suggestions_async (st : AIState) (fs : FS)
    (api : String → Except Unit String)
    (file_path : String) (file_content? : Option String)
    (callback : List String → α) : α :=
  callback (get_document_name_suggestions st fs api file_path file_content?)

/-- Modelled from the spec: the fixed apology string that ask/analyze
return on any failure.  The methods AIAssistant.ask_question and
AIAssistant.analyze_file are absent from src/core/ai_assistant.py (only
their callers AIDialog._ask_question and AIDialog._analyze_file appear),
so the spec does not pin the exact wording; any fixed string realises
the contract. -/
def apologyText : String :=
  "Sorry, I encountered an error while processing your request."

/-- Modelled from the spec: the context-aware prompt of ask_question,
the question plus the optional file excerpt. -/
def askPrompt (question : String) (file_content? : Option String)
    (file_path? : Option String) : String :=
  match file_content?, file_path? with
  | some c, some p => "File: " ++ basename p ++ "\n" ++ c ++ "\n\nQuestion: " ++ question
  | some c, none => c ++ "\n\nQuestion: " ++ question
  | none, _ => question

/-- Modelled from the spec: the fixed analyze-this-document instruction
plus the file excerpt, the prompt of analyze_file. -/
def analyzePrompt (file_path : String) (file_content : String) : String :=
  "Analyze this document.\nFile: " ++ basename file_path ++ "\n" ++ file_content

/-- Modelled from the spec: AIAssistant.ask_question is missing from
src/core/ai_assistant.py (only its caller AIDialog._ask_question is
present).  Per spec section 4.1 it builds a context-aware prompt from
the question and the optional file excerpt and returns the remote
completion text, or the fixed apology string on any failure, and the
fixed fallback text when the service is not ready. -/
def ask_question (st : AIState) (api : String → Except Unit String)
    (question : String) (file_content? : Option String)
    (file_path? : Option String) : String :=
  if !(is_ready st) then apologyText
  else
    match api (askPrompt question file_content? file_path?) with
    | .ok t => t
    | .error _ => apologyText

/-- Modelled from the spec: AIAssistant.analyze_file is missing from
src/core/ai_assistant.py (only its caller AIDialog._analyze_file is
present).  Per spec section 4.1 it sends a fixed analyze instruction
plus the file excerpt and returns the remote completion text, or the
fixed apology string on any failure. -/
def analyze_file (st : AIState) (api : String → Except Unit String)
    (file_path : String) (file_content : String) : String :=
  if !(is_ready st) then apologyText
  else
    match api (analyzePrompt file_path file_content) with
    | .ok t => t
    | .error _ => apologyText

/-- The on-disk config record written by AIAssistant._save_config: the
api_key plus three fixed fields (model gpt-3.5-turbo, max_tokens 1000,
temperature 0.7, the last stored here in tenths to stay in Nat). -/
structure AIConfig where
  api_key : Option String
  model : String
  max_tokens : Nat
  temperature_tenths : Nat
deriving DecidableEq

/-- AIAssistant.setup_api_key.  input is the string returned by the
simpledialog prompt (none when the user cancels).  saveOk models
whether the config-file write in _save_config succeeds (its failure is
swallowed), initOk whether _initialize of the client succeeds (the
openai module loads and client construction works; on success it sets client and
is_configured).  Returns the new service state, the new disk content and
the bool result of the method. -/
def setup_api_key (st : AIState) (disk : Option AIConfig)
    (input : Option String) (saveOk : Bool) (initOk : Bool) :
    AIState × Option AIConfig × Bool :=
  match input with
  | none => (st, disk, false)
  | some api_key =>
    if api_key = "" then (st, disk, false)
    else if pyStartsWith api_key "sk-" then
      let st1 : AIState := { st with api_key := some api_key }
      let disk1 :=
        if saveOk then
          some { api_key := some api_key, model := "gpt-3.5-turbo",
                 max_tokens := 1000, temperature_tenths := 7 }
        else disk
      if initOk then ({ st1 with client := true, is_configured := true }, disk1, true)
      else (st1, disk1, false)
    else (st, disk, false)

/-- A Python attribute as used at the call site of AIDialog._create_ui:
either a plain bool field or a callable method. -/
inductive PyCallable where
  | boolAttr (b : Bool)
  | fn (f : Unit → Bool)

/-- Calling a Python value: a plain bool attribute is not callable, so
the call raises TypeError, modelled as Except.error; a method runs. -/
def pyCall : PyCallable → Except Unit Bool
  | .boolAttr _ => .error ()
  | .fn f => .ok (f ())

/-- The attribute self.ai_assistant.is_configured read in
AIDialog._create_ui: in AIAssistant it is the bool field is_configured,
not a method. -/
def aiAttr_is_configured (st : AIState) : PyCallable := .boolAttr st.is_configured

/-- The initial-message step of AIDialog._create_ui: it evaluates
self.ai_assistant.is_configured() and appends the not-configured warning
or the ready greeting.  Because is_configured is a bool field, the call
itself is the first thing to run and its outcome decides whether any
message is appended at all. -/
def createUI_initial_message (st : AIState) : Except Unit String :=
  match pyCall (aiAttr_is_configured st) with
  | .ok b =>
    .ok (if !b then "AI Assistant not configured. Click Setup API Key to get started."
         else "AI Assistant ready! Ask me anything about your files or general questions.")
  | .error e => .error e

/-- get_document_name_suggestions as a transformer of the service state
and the on-disk config: the method body reads self.client and calls
is_ready and the extraction helper, but contains no assignment to any
self field and no config-file write, so the translation returns both
unchanged alongside the result. -/
def get_document_name_suggestions_st (st : AIState) (disk : Option AIConfig)
    (fs : FS) (api : String → Except Unit String)
    (file_path : String) (file_content? : Option String) :
    AIState × Option AIConfig × List String :=
  (st, disk, get_document_name_suggestions st fs api file_path file_content?)

/-- _extract_file_content as a transformer of the service state and the
on-disk config: its body only reads the file system, so both are
returned unchanged alongside the extracted text. -/
def extract_file_content_st (st : AIState) (disk : Option AIConfig)
    (fs : FS) (file_path : String) :
    AIState × Option AIConfig × String :=
  (st, disk, extractFileContent fs file_path)

/-- An unconfigured service state: fresh construction with no config. -/
def stUnready : AIState :=
  { api_key := none, client := false, is_configured := false }

/-- A ready service state: key loaded and client constructed. -/
def stReady : AIState :=
  { api_key := some "sk-test123", client := true, is_configured := true }

/-- A file system where every read raises and no optional reader is
installed. -/
def fsNone : FS :=
  { readText := fun _ => .error (), pdfAvailable := false,
    readPdf := fun _ => .error (), docxAvailable := false,
    readDocx := fun _ => .error () }

/-- A file system where text reads succeed with empty content (a
zero-byte text file). -/
def fsEmptyTxt : FS :=
  { readText := fun _ => .ok "", pdfAvailable := false,
    readPdf := fun _ => .error (), docxAvailable := false,
    readDocx := fun _ => .error () }

/-- A completion oracle whose call always raises. -/
def apiNone : String → Except Unit String := fun _ => .error ()

/-- A 3001-character content string, used to exercise the truncation
branch. -/
def longContent : String := ⟨List.replicate 3001 'a'⟩

theorem ne_empty_of_length_pos (s : String) (h : 0 < s.length) : s ≠ "" := by
  intro he
  rw [he] at h
  exact absurd h (by decide)

theorem append3_ne_empty (s t u : String) (h : 0 < t.length) : s ++ t ++ u ≠ "" := by
  apply ne_empty_of_length_pos
  rw [String.length_append, String.length_append]
  omega

theorem append_ne_empty_right (s t : String) (h : 0 < t.length) : s ++ t ≠ "" := by
  apply ne_empty_of_length_pos
  rw [String.length_append]
  omega

theorem get_fallback_suggestions_length (p : String) :
    (get_fallback_suggestions p).length = 3 := by
  simp [get_fallback_suggestions]

theorem get_fallback_suggestions_ne_empty (p : String) :
    ∀ s ∈ get_fallback_suggestions p, s ≠ "" := by
  intro s hs
  simp only [get_fallback_suggestions, List.mem_cons, List.mem_singleton,
    List.not_mem_nil, or_false] at hs
  rcases hs with h | h | h <;> subst h <;>
    exact append_ne_empty_right _ _ (by decide)

theorem padSuggestions_length_aux (base : String) :
    ∀ (n : Nat) (l : List String), 3 - l.length ≤ n →
      (padSuggestions base l).length = 3 := by
  intro n
  induction n with
  | zero =>
    intro l hl
    unfold padSuggestions
    split
    · exfalso; omega
    · rw [List.length_take]; omega
  | succ n ih =>
    intro l hl
    unfold padSuggestions
    split
    · apply ih
      rw [List.length_append]
      simp only [List.length_singleton]
      omega
    · rw [List.length_take]; omega

theorem padSuggestions_mem_aux (base : String) :
    ∀ (n : Nat) (l : List String), 3 - l.length ≤ n →
      (∀ s ∈ l, s ≠ "") → ∀ s ∈ padSuggestions base l, s ≠ "" := by
  intro n
  induction n with
  | zero =>
    intro l hl _hne
    unfold padSuggestions
    split
    · exfalso; omega
    · intro s hs
      exact _hne s (List.take_subset _ _ hs)
  | succ n ih =>
    intro l hl hne
    unfold padSuggestions
    split
    · apply ih
      · rw [List.length_append]
        simp only [List.length_singleton]
        omega
      · intro s hs
        rcases List.mem_append.1 hs with h1 | h2
        · exact hne s h1
        · rw [List.mem_singleton] at h2
          subst h2
          exact append3_ne_empty _ _ _ (by decide)
    · intro s hs
      exact hne s (List.take_subset _ _ hs)

theorem suggestions_not_ready_eq (st : AIState) (fs : FS)
    (api : String → Except Unit String) (p : String) (c? : Option String)
    (h : is_ready st = false) :
    get_document_name_suggestions st fs api p c? = [] := by
  simp [get_document_name_suggestions, h]

theorem suggestions_ready_spec (st : AIState) (fs : FS)
    (api : String → Except Unit String) (p : String) (c? : Option String)
    (h : is_ready st = true) :
    (get_document_name_suggestions st fs api p c?).length = 3 ∧
      ∀ s ∈ get_document_name_suggestions st fs api p c?, s ≠ "" := by
  unfold get_document_name_suggestions
  rw [h]
  simp only [Bool.not_true, Bool.false_eq_true, if_false]
  split
  · exact ⟨get_fallback_suggestions_length p, get_fallback_suggestions_ne_empty p⟩
  · split
    · next h3 =>
      constructor
      · rw [List.length_take]; omega
      · intro s hs
        have hmem := List.take_subset _ _ hs
        have := (List.mem_filter.1 hmem).2
        simpa using this
    · split
      · next hne =>
        constructor
        · exact padSuggestions_length_aux _ _ _ le_rfl
        · refine padSuggestions_mem_aux _ _ _ le_rfl ?_
          intro s hs
          have := (List.mem_filter.1 hs).2
          simpa using this
      · exact ⟨get_fallback_suggestions_length p, get_fallback_suggestions_ne_empty p⟩

theorem append_ne_empty_left (s t : String) (h : 0 < s.length) : s ++ t ≠ "" := by
  apply ne_empty_of_length_pos
  rw [String.length_append]
  omega

/-- Claim C1, counterexample: with an unconfigured service state the
claim fails as stated, because get_document_name_suggestions returns the
empty sequence rather than 3 non-empty strings. -/
theorem c1_counterexample :
    (get_document_name_suggestions stUnready fsNone apiNone "report.txt" none).length ≠ 3 := by
  decide

/-- Claim C1, amended: for every file path, content argument, file
system and completion outcome, when the service is ready
get_document_name_suggestions returns a sequence of exactly 3 non-empty
strings; when it is not ready it returns the empty sequence instead. -/
theorem c1_ready_three_nonempty (st : AIState) (fs : FS)
    (api : String → Except Unit String) (p : String) (c? : Option String)
    (h : is_ready st = true) :
    (get_document_name_suggestions st fs api p c?).length = 3 ∧
      ∀ s ∈ get_document_name_suggestions st fs api p c?, s ≠ "" :=
  suggestions_ready_spec st fs api p c? h

/-- Claim C1, witness: a ready state with a failing file system and a
failing completion oracle still yields exactly 3 suggestions. -/
theorem c1_ready_three_nonempty_witness :
    (get_document_name_suggestions stReady fsNone apiNone "report.txt" none).length = 3 :=
  (c1_ready_three_nonempty stReady fsNone apiNone "report.txt" none (by decide)).1

/-- Claim C2: ask_question and analyze_file return either the remote
completion text of their prompt or the fixed apology string, for every
service state and completion outcome; as total functions they never
raise past their boundary. -/
theorem c2_ask_analyze_completion_or_apology (st : AIState)
    (api : String → Except Unit String) (q : String)
    (fc? fp? : Option String) (p c : String) :
    (ask_question st api q fc? fp? = apologyText ∨
      api (askPrompt q fc? fp?) = Except.ok (ask_question st api q fc? fp?)) ∧
    (analyze_file st api p c = apologyText ∨
      api (analyzePrompt p c) = Except.ok (analyze_file st api p c)) := by
  constructor
  · unfold ask_question
    split
    · exact Or.inl rfl
    · cases hapi : api (askPrompt q fc? fp?) with
      | ok t => exact Or.inr rfl
      | error e => exact Or.inl rfl
  · unfold analyze_file
    split
    · exact Or.inl rfl
    · cases hapi : api (analyzePrompt p c) with
      | ok t => exact Or.inr rfl
      | error e => exact Or.inl rfl

/-- Claim C3: whenever is_ready is false, get_document_name_suggestions
returns the empty sequence, no matter the path, content, file system or
completion oracle. -/
theorem c3_not_ready_empty (st : AIState) (fs : FS)
    (api : String → Except Unit String) (p : String) (c? : Option String)
    (h : is_ready st = false) :
    get_document_name_suggestions st fs api p c? = [] :=
  suggestions_not_ready_eq st fs api p c? h

/-- Claim C3, witness: the fresh unconfigured state yields the empty
sequence. -/
theorem c3_not_ready_empty_witness :
    get_document_name_suggestions stUnready fsNone apiNone "notes.txt" none = [] :=
  c3_not_ready_empty stUnready fsNone apiNone "notes.txt" none (by decide)

/-- Claim C4: a credential that does not start with sk- makes
setup_api_key fail (returns false), leave the service state unchanged
and leave the on-disk config unchanged, for every prior state and every
save or client-construction outcome. -/
theorem c4_bad_key_rejected (st : AIState) (disk : Option AIConfig)
    (key : String) (saveOk initOk : Bool)
    (h : pyStartsWith key "sk-" = false) :
    setup_api_key st disk (some key) saveOk initOk = (st, disk, false) := by
  by_cases hk : key = ""
  · simp [setup_api_key, hk]
  · simp [setup_api_key, hk, h]

/-- Claim C4, witness: the credential abc is rejected and nothing
changes. -/
theorem c4_bad_key_rejected_witness :
    setup_api_key stUnready none (some "abc") true true = (stUnready, none, false) :=
  c4_bad_key_rejected stUnready none "abc" true true (by decide)

/-- Claim C5: when the service is ready and the completion call raises,
get_document_name_suggestions returns exactly the three deterministic
names base_renamed, base_organized, base_updated in that order, base
being the file basename without extension. -/
theorem c5_api_failure_fallback (st : AIState) (fs : FS)
    (p : String) (c? : Option String) (h : is_ready st = true) :
    get_document_name_suggestions st fs (fun _ => Except.error ()) p c? =
      [baseNameNoExt p ++ "_renamed", baseNameNoExt p ++ "_organized",
       baseNameNoExt p ++ "_updated"] := by
  unfold get_document_name_suggestions
  rw [h]
  simp [get_fallback_suggestions]

/-- Claim C5, witness: report.txt with a raising completion call yields
the spec scenario names. -/
theorem c5_api_failure_fallback_witness :
    get_document_name_suggestions stReady fsNone (fun _ => Except.error ())
        "report.txt" none =
      ["report_renamed", "report_organized", "report_updated"] := by
  rw [c5_api_failure_fallback stReady fsNone "report.txt" none (by decide)]
  decide

/-- Claim C6, counterexample: a zero-byte text file is read back as the
empty string, so _extract_file_content returns the empty string, not a
non-empty fallback description. -/
theorem c6_counterexample : extractFileContent fsEmptyTxt "report.txt" = "" := by
  decide

/-- Claim C6, amended: _extract_file_content is total (it never raises),
and for an unreadable file, one whose every read raises, it returns a
non-empty fallback description string; an empty text file that reads
successfully, however, yields the empty string, and the non-empty
filename stub is substituted only by the caller. -/
theorem c6_unreadable_nonempty (fs : FS) (p : String)
    (hT : fs.readText p = Except.error ())
    (hP : fs.readPdf p = Except.error ())
    (hD : fs.readDocx p = Except.error ()) :
    extractFileContent fs p ≠ "" := by
  have h10 : 0 < ("Filename: " : String).length := by decide
  simp only [extractFileContent, hT, hP, hD]
  split
  · exact append_ne_empty_left _ _ h10
  · split
    · split
      · exact append_ne_empty_left _ _ h10
      · exact ne_empty_of_length_pos _ (by
          rw [String.length_append, String.length_append, String.length_append]; omega)
    · split
      · split
        · exact append_ne_empty_left _ _ h10
        · exact ne_empty_of_length_pos _ (by
            rw [String.length_append, String.length_append, String.length_append]; omega)
      · exact ne_empty_of_length_pos _ (by
          rw [String.length_append, String.length_append, String.length_append]; omega)

/-- Claim C6, witness: a file system where every read raises yields a
non-empty description for report.pdf. -/
theorem c6_unreadable_nonempty_witness :
    extractFileContent fsNone "report.pdf" ≠ "" :=
  c6_unreadable_nonempty fsNone "report.pdf" rfl rfl rfl

/-- Claim C7: content longer than 3000 characters is truncated to its
first 3000 characters plus the marker, and content of length at most
3000 passes through unchanged, so the marker is appended exactly when
the original length exceeds 3000. -/
theorem c7_truncation (s : String) :
    (3000 < s.length → truncateContent s = s.take 3000 ++ "...") ∧
    (s.length ≤ 3000 → truncateContent s = s) := by
  constructor
  · intro h
    unfold truncateContent
    rw [if_pos h]
  · intro h
    unfold truncateContent
    rw [if_neg (by omega)]

/-- Claim C7, witness: a 3001-character content is truncated with the
marker, a 3-character content passes unchanged. -/
theorem c7_truncation_witness :
    truncateContent longContent = longContent.take 3000 ++ "..." ∧
      truncateContent "abc" = "abc" :=
  ⟨(c7_truncation longContent).1 (by
      show 3000 < (List.replicate 3001 'a').length
      rw [List.length_replicate]
      omega),
   (c7_truncation "abc").2 (by decide)⟩

/-- Claim C8: on every path of get_document_name_suggestions the result
length is 0 or 3, never 1, 2 or more than 3. -/
theorem c8_length_zero_or_three (st : AIState) (fs : FS)
    (api : String → Except Unit String) (p : String) (c? : Option String) :
    (get_document_name_suggestions st fs api p c?).length = 0 ∨
      (get_document_name_suggestions st fs api p c?).length = 3 := by
  cases h : is_ready st with
  | false =>
    left
    rw [suggestions_not_ready_eq st fs api p c? h]
    rfl
  | true =>
    right
    exact (suggestions_ready_spec st fs api p c? h).1

/-- Claim C9: the initial-message step of AIDialog._create_ui calls
self.ai_assistant.is_configured(), but is_configured is a bool field and
not callable, so the step raises TypeError for every service state and
no initial system message is produced. -/
theorem c9_initial_message_type_error (st : AIState) :
    createUI_initial_message st = Except.error () := rfl

/-- Claim C10: get_document_name_suggestions and _extract_file_content
leave api_key, client, is_configured and the on-disk config unchanged
for every input. -/
theorem c10_frame_no_state_change (st : AIState) (disk : Option AIConfig)
    (fs : FS) (api : String → Except Unit String)
    (p : String) (c? : Option String) :
    ((get_document_name_suggestions_st st disk fs api p c?).1 = st ∧
      (get_document_name_suggestions_st st disk fs api p c?).2.1 = disk) ∧
    ((extract_file_content_st st disk fs p).1 = st ∧
      (extract_file_content_st st disk fs p).2.1 = disk) :=
  ⟨⟨rfl, rfl⟩, ⟨rfl, rfl⟩⟩
